import Mathlib

/-!
Verification of SecondaryCoolantProps (`scp/base_fluid.py`,
`scp/ethyl_alcohol.py`) against its specification.

Modelling conventions:
* Python floats are modelled as rationals (`ℚ`); decimal and scientific
  literals are taken at their exact decimal value.
* `scp/base_fluid.py` constructs `ValueError(msg)` / `UserWarning(msg)`
  objects without `raise`-ing or emitting them, so those statements are
  no-ops at runtime; the modelled functions are accordingly total and the
  dead constructions are recorded in comments.
* `BaseFluid.__init__` sets the attributes `c_min`, `c_max`, `c` only when
  the `conc` argument is not `None`; the model keeps them in an optional
  `ConcFields` component.  Reading them on an instance built without a
  concentration would raise `AttributeError` in Python, which the model
  renders as an `Option`-valued accessor returning `none`.
* The abstract methods `viscosity`, `specific_heat`, `density`,
  `conductivity` (implemented in subclasses outside `base_fluid.py`) are
  modelled as an arbitrary bundle `FluidProps` of functions `ℚ → ℚ`; the
  concrete derived quantities of `BaseFluid` are defined over that bundle.
-/

namespace SCP

/-- The concentration attributes `c_min`, `c_max`, `c` that
`BaseFluid.__init__` sets only when `conc is not None`. -/
structure ConcFields where
  c_min : ℚ
  c_max : ℚ
  c : ℚ

/-- State of a `BaseFluid` instance after `__init__`: temperature bounds,
and the concentration attributes when a concentration was supplied. -/
structure BaseFluidState where
  t_min : ℚ
  t_max : ℚ
  conc : Option ConcFields

/-- `BaseFluid._set_temperature_limits` (base_fluid.py:100-114).  When
`t_min >= t_max` the source builds `ValueError(msg)` but never raises it,
so the function unconditionally stores both values. -/
def set_temperature_limits (t_min t_max : ℚ) : ℚ × ℚ :=
  (t_min, t_max)

/-- `BaseFluid._set_concentration` (base_fluid.py:49-77).  When
`c_min >= c_max` the source builds `ValueError(msg)` but never raises it;
the out-of-range branches build `UserWarning(msg)` objects that are never
emitted.  The stored fields are exactly what the source assigns. -/
def set_concentration (conc c_min c_max : ℚ) : ConcFields :=
  { c_min := c_min
    c_max := c_max
    c :=
      if conc < c_min then c_min
      else if conc > c_max then c_max
      else conc }

/-- `BaseFluid.__init__` (base_fluid.py:9-38).  The concentration block
runs only when `conc` is not `None`; `c_min`/`c_max` are read only inside
that block. -/
def baseFluidInit (t_min t_max : ℚ) (conc : Option ℚ) (c_min c_max : ℚ) :
    BaseFluidState :=
  let tl := set_temperature_limits t_min t_max
  { t_min := tl.1
    t_max := tl.2
    conc := conc.map fun cv => set_concentration cv c_min c_max }

/-- Body of `BaseFluid._check_concentration` (base_fluid.py:79-98), given
the instance's concentration attributes.  The `UserWarning(msg)`
constructions in both clamp branches are dead code. -/
def check_concentration_fields (cf : ConcFields) (conc : ℚ) : ℚ :=
  if conc < cf.c_min then cf.c_min
  else if conc > cf.c_max then cf.c_max
  else conc

/-- `BaseFluid._check_concentration` on an instance: accessing
`self.c_min` / `self.c_max` raises `AttributeError` (modelled as `none`)
when the instance was constructed without a concentration. -/
def check_concentration (s : BaseFluidState) (conc : ℚ) : Option ℚ :=
  s.conc.map fun cf => check_concentration_fields cf conc

/-- `BaseFluid._check_temperature` (base_fluid.py:116-135); the
`UserWarning(msg)` constructions are dead code. -/
def check_temperature (s : BaseFluidState) (temp : ℚ) : ℚ :=
  if temp < s.t_min then s.t_min
  else if temp > s.t_max then s.t_max
  else temp

/-- The four abstract property methods a derived fluid implements
(`viscosity`, `specific_heat`, `density`, `conductivity`). -/
structure FluidProps where
  viscosity : ℚ → ℚ
  specific_heat : ℚ → ℚ
  density : ℚ → ℚ
  conductivity : ℚ → ℚ

/-- `BaseFluid.mu` (base_fluid.py:148-155). -/
def mu (f : FluidProps) (temp : ℚ) : ℚ :=
  f.viscosity temp

/-- `BaseFluid.cp` (base_fluid.py:168-175). -/
def cp (f : FluidProps) (temp : ℚ) : ℚ :=
  f.specific_heat temp

/-- `BaseFluid.rho` (base_fluid.py:188-195). -/
def rho (f : FluidProps) (temp : ℚ) : ℚ :=
  f.density temp

/-- `BaseFluid.k` (base_fluid.py:208-215). -/
def k (f : FluidProps) (temp : ℚ) : ℚ :=
  f.conductivity temp

/-- `BaseFluid.prandtl` (base_fluid.py:217-224):
`self.cp(temp) * self.mu(temp) / self.k(temp)`. -/
def prandtl (f : FluidProps) (temp : ℚ) : ℚ :=
  cp f temp * mu f temp / k f temp

/-- `BaseFluid.pr` (base_fluid.py:226-233). -/
def pr (f : FluidProps) (temp : ℚ) : ℚ :=
  prandtl f temp

/-- `BaseFluid.thermal_diffusivity` (base_fluid.py:235-242):
`self.k(temp) / (self.rho(temp) * self.cp(temp))`. -/
def thermal_diffusivity (f : FluidProps) (temp : ℚ) : ℚ :=
  k f temp / (rho f temp * cp f temp)

/-- `BaseFluid.alpha` (base_fluid.py:244-251). -/
def alpha (f : FluidProps) (temp : ℚ) : ℚ :=
  thermal_diffusivity f temp

namespace EthylAlcohol

/-- `EthylAlcohol.coefficient_viscosity` (ethyl_alcohol.py:11-19). -/
def coefficient_viscosity : List (List ℚ) :=
  [ [1.4740e00, -4.7450e-02, 4.3140e-04, -3.0230e-06],
    [1.5650e-02, -4.1060e-05, -5.1350e-06, 7.0040e-08],
    [-8.4350e-04, 1.6400e-05, -1.0910e-07, -1.9670e-09],
    [7.5520e-06, -1.1180e-07, 1.8990e-09],
    [1.5290e-07, -9.4810e-10],
    [-4.1300e-09] ]

/-- `EthylAlcohol.coefficient_specific_heat` (ethyl_alcohol.py:21-29). -/
def coefficient_specific_heat : List (List ℚ) :=
  [ [4.2040e03, 2.3190e00, -3.0420e-02, 6.8600e-04],
    [-2.1020e01, 4.9270e-01, -3.0720e-03, -5.6900e-05],
    [-3.7140e-01, -2.3350e-03, -1.9600e-05, 7.4610e-07],
    [1.7430e-02, -2.9690e-04, 1.9010e-06],
    [-6.2920e-05, 5.3530e-06],
    [-8.2900e-06] ]

/-- `EthylAlcohol.coefficient_conductivity` (ethyl_alcohol.py:31-39). -/
def coefficient_conductivity : List (List ℚ) :=
  [ [4.0670e-01, 6.7750e-04, 3.1050e-07, -2.0000e-08],
    [-5.0080e-03, -2.3770e-05, -3.2160e-08, 8.3620e-11],
    [2.8010e-05, 2.6690e-07, -3.6060e-09, 1.5520e-11],
    [-2.0090e-08, -6.8130e-09, 1.4290e-10],
    [-1.5060e-09, 1.1670e-10],
    [-1.6530e-11] ]

/-- `EthylAlcohol.coefficient_density` (ethyl_alcohol.py:41-49). -/
def coefficient_density : List (List ℚ) :=
  [ [9.6190e02, -5.2220e-01, -3.2810e-03, 1.5690e-05],
    [-1.4330e00, -1.9890e-02, 1.8700e-04, -9.1540e-07],
    [-2.2600e-02, 2.2810e-04, -8.5810e-08, 4.0560e-09],
    [-1.6900e-04, 8.5940e-06, -9.6070e-08],
    [1.2910e-05, -1.5900e-07],
    [-8.3180e-08] ]

/-- The local list `coefficient_freeze` of
`EthylAlcohol.calc_freeze_point` (ethyl_alcohol.py:81). -/
def coefficient_freeze : List ℚ :=
  [2.4685e00, -9.8592e-01, 1.6750e-02, -1.8251e-04]

/-- `EthylAlcohol.calc_freeze_point` (ethyl_alcohol.py:64-83), given the
concentration attributes of the instance (always present for an
`EthylAlcohol`, which passes a concentration to the base constructor). -/
def calc_freeze_point (cf : ConcFields) (x : ℚ) : ℚ :=
  if x < 0.05 then 0
  else
    let xc := check_concentration_fields cf x
    (List.zipWith (· * ·) coefficient_freeze
      ((List.range 4).map fun p => xc ^ p)).sum

/-- State of an `EthylAlcohol` instance after `__init__`
(ethyl_alcohol.py:51-62): the base-fluid state (with `t_min` overwritten
by the freeze point) plus `t_freeze`, `x_base`, `t_base`. -/
structure State where
  base : BaseFluidState
  t_freeze : ℚ
  x_base : ℚ
  t_base : ℚ

/-- `EthylAlcohol.__init__` (ethyl_alcohol.py:51-62):
`super().__init__(0.0, 40, x, 0.0, 0.6)` then
`self.t_min = self.t_freeze = self.calc_freeze_point(x)`.
The concentration attributes read by `calc_freeze_point` are exactly
`set_concentration x 0.0 0.6`, the fields stored by the base
constructor. -/
def init (x : ℚ) : State :=
  let s0 := baseFluidInit 0.0 40 (some x) 0.0 0.6
  let cf := set_concentration x 0.0 0.6
  let tf := calc_freeze_point cf x
  { base := { s0 with t_min := tf }
    t_freeze := tf
    x_base := 29.2361
    t_base := 8.1578 }

end EthylAlcohol

/-- A concrete bundle of property functions, used to instantiate theorems
that quantify over a fluid's abstract property methods. -/
def constProps : FluidProps :=
  { viscosity := fun _ => 2
    specific_heat := fun _ => 3
    density := fun _ => 5
    conductivity := fun _ => 7 }

/-- Claim C1: the spec requires construction with `t_min >= t_max` (or
`c_min >= c_max`) to raise a configuration error; the source only
constructs the `ValueError` without raising it, so construction succeeds
and stores the inverted bounds — this theorem evaluates the code at the
spec's failing input `t_min=50, t_max=10` (and at inverted concentration
bounds) and shows a usable instance results. -/
theorem c1_inverted_bounds_construction_succeeds :
    (baseFluidInit 50 10 none 0 0).t_min = 50 ∧
    (baseFluidInit 50 10 none 0 0).t_max = 10 ∧
    check_temperature (baseFluidInit 50 10 none 0 0) 30 = 50 ∧
    (set_concentration 30 50 10).c_min = 50 ∧
    (set_concentration 30 50 10).c_max = 10 ∧
    (set_concentration 30 50 10).c = 50 :=
  ⟨rfl, rfl, by norm_num [baseFluidInit, set_temperature_limits,
    check_temperature], rfl, rfl, by norm_num [set_concentration]⟩

/-- Claim C2: for bounds `lo < hi`, the runtime clamps of temperature and
of concentration return `lo` below the range, `hi` above it, and the value
itself inside it; both are total functions (the `UserWarning` objects the
source builds are never raised), so an out-of-range query still returns a
result. -/
theorem c2_clamp_cases (lo hi v : ℚ) (hlt : lo < hi) :
    (v < lo → check_temperature ⟨lo, hi, none⟩ v = lo) ∧
    (v > hi → check_temperature ⟨lo, hi, none⟩ v = hi) ∧
    (lo ≤ v → v ≤ hi → check_temperature ⟨lo, hi, none⟩ v = v) ∧
    (v < lo → check_concentration_fields ⟨lo, hi, 0⟩ v = lo) ∧
    (v > hi → check_concentration_fields ⟨lo, hi, 0⟩ v = hi) ∧
    (lo ≤ v → v ≤ hi → check_concentration_fields ⟨lo, hi, 0⟩ v = v) := by
  unfold check_temperature check_concentration_fields
  refine ⟨fun h => ?_, fun h => ?_, fun h1 h2 => ?_,
          fun h => ?_, fun h => ?_, fun h1 h2 => ?_⟩ <;>
    simp only [] <;> split_ifs <;> first | rfl | linarith

/-- Witness for C2 at `lo = 0`, `hi = 10`, `v = -5`. -/
theorem c2_clamp_cases_witness :
    check_temperature ⟨0, 10, none⟩ (-5) = 0 :=
  (c2_clamp_cases 0 10 (-5) (by norm_num)).1 (by norm_num)

/-- Claim C3 counterexample: the claim says row `i` of every coefficient
table has `4 - i` entries; in `EthylAlcohol.coefficient_viscosity` row 1
has 4 entries, not 3 (and the table has 6 rows, not 4). -/
theorem c3_triangularity_counterexample :
    ¬ (∀ i, i < EthylAlcohol.coefficient_viscosity.length →
        (EthylAlcohol.coefficient_viscosity.getD i []).length = 4 - i) := by
  intro h
  have h1 := h 1 (by simp [EthylAlcohol.coefficient_viscosity])
  simp [EthylAlcohol.coefficient_viscosity] at h1

/-- Claim C3 (amended): every coefficient table of `EthylAlcohol`
(viscosity, specific heat, conductivity, density) has six rows with
lengths 4, 4, 4, 3, 2, 1 — the first three rows have 4 entries, and from
row 2 on the lengths decrease by one per row down to 1. -/
theorem c3_row_lengths :
    EthylAlcohol.coefficient_viscosity.map List.length = [4, 4, 4, 3, 2, 1] ∧
    EthylAlcohol.coefficient_specific_heat.map List.length = [4, 4, 4, 3, 2, 1] ∧
    EthylAlcohol.coefficient_conductivity.map List.length = [4, 4, 4, 3, 2, 1] ∧
    EthylAlcohol.coefficient_density.map List.length = [4, 4, 4, 3, 2, 1] :=
  ⟨rfl, rfl, rfl, rfl⟩

/-- Claim C4: the freeze-point evaluation returns `0` for concentration
`x < 0.05` (the coefficient list is never consulted on that branch);
otherwise it clamps `x` into the instance's concentration bounds and
returns `Σ_k coefficient_freeze[k] * x_clamped^k` for `k` from 0 to
`len(coefficient_freeze) - 1`. -/
theorem c4_freeze_point_eval (cf : ConcFields) (x : ℚ) :
    (x < 0.05 → EthylAlcohol.calc_freeze_point cf x = 0) ∧
    (0.05 ≤ x → EthylAlcohol.calc_freeze_point cf x =
      ∑ j ∈ Finset.range EthylAlcohol.coefficient_freeze.length,
        EthylAlcohol.coefficient_freeze.getD j 0 *
          (check_concentration_fields cf x) ^ j) := by
  constructor
  · intro h
    simp [EthylAlcohol.calc_freeze_point, h]
  · intro h
    rw [EthylAlcohol.calc_freeze_point, if_neg (not_lt.2 h)]
    simp [EthylAlcohol.coefficient_freeze, List.range_succ,
      Finset.sum_range_succ]
    ring

/-- Witness for C4: both branches at concrete inputs, with the instance
bounds of `EthylAlcohol` (`c_min = 0`, `c_max = 0.6`). -/
theorem c4_freeze_point_eval_witness :
    EthylAlcohol.calc_freeze_point ⟨0, 0.6, 0.3⟩ 0.03 = 0 ∧
    EthylAlcohol.calc_freeze_point ⟨0, 0.6, 0.3⟩ 0.3 =
      ∑ j ∈ Finset.range EthylAlcohol.coefficient_freeze.length,
        EthylAlcohol.coefficient_freeze.getD j 0 *
          (check_concentration_fields ⟨0, 0.6, 0.3⟩ (0.3 : ℚ)) ^ j :=
  ⟨(c4_freeze_point_eval ⟨0, 0.6, 0.3⟩ 0.03).1 (by norm_num),
   (c4_freeze_point_eval ⟨0, 0.6, 0.3⟩ 0.3).2 (by norm_num)⟩

/-- Claim C5: after `EthylAlcohol.__init__(x)`, the freeze-point result is
stored both as `t_freeze` and as the effective lower temperature bound
`t_min`: `t_min = t_freeze = calc_freeze_point` at `x` (with the
concentration attributes the base constructor stored). -/
theorem c5_t_min_equals_t_freeze (x : ℚ) :
    (EthylAlcohol.init x).base.t_min = (EthylAlcohol.init x).t_freeze ∧
    (EthylAlcohol.init x).t_freeze =
      EthylAlcohol.calc_freeze_point (set_concentration x 0.0 0.6) x ∧
    (baseFluidInit 0.0 40 (some x) 0.0 0.6).conc =
      some (set_concentration x 0.0 0.6) :=
  ⟨rfl, rfl, rfl⟩

/-- Claim C6: for every bundle of property functions and every
temperature, `prandtl` is exactly
`specific_heat(t) * viscosity(t) / conductivity(t)` (no guard on a zero
conductivity). -/
theorem c6_prandtl_formula (f : FluidProps) (t : ℚ) :
    prandtl f t = f.specific_heat t * f.viscosity t / f.conductivity t :=
  rfl

/-- Claim C7: `thermal_diffusivity` is exactly
`conductivity(t) / (density(t) * specific_heat(t))` (no guard on a zero
denominator). -/
theorem c7_thermal_diffusivity_formula (f : FluidProps) (t : ℚ) :
    thermal_diffusivity f t =
      f.conductivity t / (f.density t * f.specific_heat t) :=
  rfl

/-- Claim C8: for every fluid instance and temperature in
`[t_min, t_max]`, the shorthand aliases agree exactly with the named
properties. -/
theorem c8_alias_equivalence (s : BaseFluidState) (f : FluidProps) (t : ℚ)
    (_hlo : s.t_min ≤ t) (_hhi : t ≤ s.t_max) :
    mu f t = f.viscosity t ∧ cp f t = f.specific_heat t ∧
    rho f t = f.density t ∧ k f t = f.conductivity t ∧
    pr f t = prandtl f t ∧ alpha f t = thermal_diffusivity f t :=
  ⟨rfl, rfl, rfl, rfl, rfl, rfl⟩

/-- Witness for C8 at a concrete instance, property bundle and in-range
temperature. -/
theorem c8_alias_equivalence_witness :
    mu constProps 5 = constProps.viscosity 5 ∧
    cp constProps 5 = constProps.specific_heat 5 ∧
    rho constProps 5 = constProps.density 5 ∧
    k constProps 5 = constProps.conductivity 5 ∧
    pr constProps 5 = prandtl constProps 5 ∧
    alpha constProps 5 = thermal_diffusivity constProps 5 :=
  c8_alias_equivalence ⟨0, 10, none⟩ constProps 5
    (by norm_num) (by norm_num)

/-- Claim C9: with bounds `c_min < c_max`, construction stores the
concentration clamped into the bounds, so the stored `c` lies in
`[c_min, c_max]`; the base constructor stores exactly these fields when a
concentration is supplied. -/
theorem c9_concentration_clamped (conc c_min c_max : ℚ)
    (hlt : c_min < c_max) :
    (conc < c_min → (set_concentration conc c_min c_max).c = c_min) ∧
    (conc > c_max → (set_concentration conc c_min c_max).c = c_max) ∧
    (c_min ≤ conc → conc ≤ c_max →
      (set_concentration conc c_min c_max).c = conc) ∧
    c_min ≤ (set_concentration conc c_min c_max).c ∧
    (set_concentration conc c_min c_max).c ≤ c_max ∧
    ∀ tl th : ℚ, (baseFluidInit tl th (some conc) c_min c_max).conc =
      some (set_concentration conc c_min c_max) := by
  unfold set_concentration baseFluidInit
  refine ⟨fun h => ?_, fun h => ?_, fun ha hb => ?_, ?_, ?_, fun _ _ => rfl⟩ <;>
    simp only [] <;> split_ifs <;> first | rfl | linarith

/-- Witness for C9 at `conc = 70`, bounds `[0, 60]`. -/
theorem c9_concentration_clamped_witness :
    (set_concentration 70 0 60).c = 60 :=
  (c9_concentration_clamped 70 0 60 (by norm_num)).2.1 (by norm_num)

/-- Claim C10: an instance constructed without a concentration argument
carries no concentration state, and `_check_concentration` on it fails
(attribute access on the missing `c_min`), while on any instance built
with a concentration it succeeds. -/
theorem c10_missing_concentration_state (tl th cm cx v : ℚ) :
    (baseFluidInit tl th none cm cx).conc = none ∧
    check_concentration (baseFluidInit tl th none cm cx) v = none ∧
    ∀ conc : ℚ,
      (check_concentration (baseFluidInit tl th (some conc) cm cx) v).isSome :=
  ⟨rfl, rfl, fun _ => rfl⟩

end SCP
